import Mathlib

/-!
Shallow embedding of the crash-recoverable multi-agent pipeline of
Mukei/crewai-experiment: the artifact store (`src/utils/file_manager.py`),
the progress ledger (`src/utils/progress_tracker.py`), the model-client
lifecycle and the `process_with_revisions` orchestration entry point
(`src/crew.py`), and the search-result scoring of
`src/tools/web_search.py`.  Each definition mirrors the corresponding
Python function; filesystem effects are made explicit as state passing.
-/

namespace CrewExp

/-! ## Artifact store (`src/utils/file_manager.py`) -/

/-- Artifact kinds; each kind lives in its own subdirectory
(`research/`, `writing/`, `editing/`) of the store's base directory. -/
inductive Kind where
  | research
  | writing
  | editing
deriving DecidableEq

/-- A filename of the form `f"{session_id}_{timestamp}.json"`, modelled
structurally as the (session id, timestamp) pair that the Python code
joins with an underscore.  The timestamp component is the string produced
by `datetime.now().strftime("%Y%m%d_%H%M%S")` — second resolution. -/
structure FName where
  sid : String
  stamp : String
deriving DecidableEq

/-- One JSON file persisted by `FileManager._save_with_metadata`, carrying
its directory (`kind`), filename, filesystem modification time and the
`content` field of the JSON document. -/
structure StoredFile where
  kind : Kind
  fname : FName
  mtime : Nat
  content : String
deriving DecidableEq

/-- The store's directory tree as a flat listing (glob order). -/
abbrev Store := List StoredFile

/-- Writing a file with `open(path, "w")`: the file at that path (the
filesystem holds at most one) is truncated and rewritten in place, its
mtime updated; a missing file is created. -/
def writeFile : Store → Kind → FName → Nat → String → Store
  | [], k, f, mtime, content => [⟨k, f, mtime, content⟩]
  | g :: gs, k, f, mtime, content =>
    if g.kind = k ∧ g.fname = f then
      { g with mtime := mtime, content := content } :: gs
    else
      g :: writeFile gs k f mtime content

/-- Reading the `content` field of the file at a path, `None` if absent
(mirrors `FileManager._read_with_metadata`). -/
def readFile (store : Store) (k : Kind) (f : FName) : Option String :=
  (store.find? (fun g => g.kind = k ∧ g.fname = f)).map (·.content)

/-- `FileManager.save_article` (alias `save_draft`): builds the filename
`f"{self.session_id}_{timestamp}.json"` under `writing/` and writes the
document there.  `now` is the formatted second-resolution timestamp taken
at call time; `mtime` the resulting file modification time.  Returns the
new store and the path written. -/
def save_article (store : Store) (session_id : String) (now : String) (mtime : Nat)
    (content : String) : Store × FName :=
  let file_path : FName := ⟨session_id, now⟩
  (writeFile store .writing file_path mtime content, file_path)

/-- `FileManager.save_research`: same shape as `save_article` but under
`research/`. -/
def save_research (store : Store) (session_id : String) (now : String) (mtime : Nat)
    (content : String) : Store × FName :=
  let file_path : FName := ⟨session_id, now⟩
  (writeFile store .research file_path mtime content, file_path)

/-- The binary step of Python's `max(..., key=lambda x: x.stat().st_mtime)`:
keep the running maximum, replacing it only on a strictly greater mtime,
so on ties the earlier file in listing order wins. -/
def mtimeMax (best g : StoredFile) : StoredFile :=
  if best.mtime < g.mtime then g else best

/-- Python's `max(files, key=lambda x: x.stat().st_mtime)`: the first
file (in listing order) whose mtime is maximal; `None` on an empty
listing (the code guards with `if research_files:`). -/
def maxByMtime : List StoredFile → Option StoredFile
  | [] => none
  | f :: fs => some (fs.foldl mtimeMax f)

/-- Core of `get_latest_research` / `get_latest_article` /
`get_latest_review`: glob `*.json` in the kind's directory — note: ALL
files of that kind, with no session filter — and take the max-mtime one. -/
def get_latest (store : Store) (k : Kind) : Option StoredFile :=
  maxByMtime (store.filter (fun g => g.kind = k))

/-- `FileManager.get_latest_research`. -/
def get_latest_research (store : Store) : Option StoredFile :=
  get_latest store .research

/-- `FileManager.get_latest_article` (alias `get_latest_draft`). -/
def get_latest_article (store : Store) : Option StoredFile :=
  get_latest store .writing

/-- `FileManager.recover_session`: glob `f"{session_id}_*.json"` per kind
(files whose name carries this session id), take the max-mtime one of
each kind; `None` when nothing at all was found. -/
def recover_session (store : Store) (session_id : String) :
    Option (Option StoredFile × Option StoredFile × Option StoredFile) :=
  let bySession := fun (k : Kind) =>
    maxByMtime (store.filter (fun g => g.kind = k ∧ g.fname.sid = session_id))
  let r := bySession .research
  let w := bySession .writing
  let e := bySession .editing
  if r = none ∧ w = none ∧ e = none then none else some (r, w, e)

/-! ## Progress ledger (`src/utils/progress_tracker.py`)

The ledger is one JSON document per session at
`temp/progress/{session_id}_progress.json`.  Step/error events carry an
ISO timestamp in the source; the timestamp string plays no role in any
property here (ordering is list order), so events keep the remaining
fields. -/

/-- One entry of the `"steps"` history written by `update_progress`. -/
structure StepEvent where
  agent : String
  step : Nat
  total : Nat
  status : String
deriving DecidableEq

/-- The `_current_progress` dictionary (minus the `start_time` /
`description` strings, which no operation reads back). -/
structure ProgressRecord where
  session_id : String
  current_step : Nat
  total_steps : Nat
  status : String
  agent : String
  steps : List StepEvent
  errors : List String
deriving DecidableEq

/-- The on-disk ledger file: absent, present but not valid JSON, or a
fully parsed document. -/
inductive DiskFile where
  | absent
  | corrupt
  | good (r : ProgressRecord)
deriving DecidableEq

/-- The default `_current_progress` built in `ProgressTracker.__init__`. -/
def init_progress (session_id : String) : ProgressRecord :=
  { session_id := session_id
    current_step := 0
    total_steps := 0
    status := "Initializing"
    agent := "System"
    steps := []
    errors := [] }

/-- `ProgressTracker._load_progress`: read and parse the file, then merge
with `dict.update` — persisted documents carry every key, so a successful
load replaces the cached record; any failure (missing file, bad JSON) is
caught and the cached record kept. -/
def load_progress (disk : DiskFile) (cur : ProgressRecord) : ProgressRecord :=
  match disk with
  | .good r => r
  | _ => cur

/-- `ProgressTracker.__init__` after building the default record: if the
progress file exists, `_load_progress`; otherwise `save_progress` creates
it.  Returns (cached record, disk after init). -/
def tracker_init (session_id : String) (disk : DiskFile) : ProgressRecord × DiskFile :=
  let cur := init_progress session_id
  match disk with
  | .absent => (cur, .good cur)
  | d => (load_progress d cur, d)

/-- `ProgressTracker.update_progress`: reload from disk (merging any
concurrent writer's persisted state), overwrite the scalar fields, append
one step event, then `save_progress`.  Returns (new cached record, new
disk contents). -/
def update_progress (disk : DiskFile) (cur : ProgressRecord) (agent : String)
    (current_step total_steps : Nat) (status : String) : ProgressRecord × DiskFile :=
  let cur := load_progress disk cur
  let cur := { cur with
    current_step := current_step
    total_steps := total_steps
    status := status
    agent := agent }
  let cur := { cur with steps := cur.steps ++ [⟨agent, current_step, total_steps, status⟩] }
  (cur, .good cur)

/-- `ProgressTracker.recover_progress`: if the file exists and parses,
return the document and make it the cached record; on a missing or
unparseable file the exception is caught before the assignment to
`self._current_progress`, so the cached record is untouched and `None`
is returned.  Result: (returned value, cached record after the call). -/
def recover_progress (disk : DiskFile) (cur : ProgressRecord) :
    Option ProgressRecord × ProgressRecord :=
  match disk with
  | .good r => (some r, r)
  | _ => (none, cur)

/-! ### Atomic persistence (`save_progress`)

`save_progress` serialises the whole record into
`progress_file.with_suffix('.tmp')` and then calls
`temp_file.replace(progress_file)` — an atomic rename.  To state the
crash-safety property the two files and the possible crash points of one
`save_progress` run are made explicit. -/

/-- Contents of the temporary file: a half-written byte string (the
writer died inside `json.dump`) or a complete serialised document. -/
inductive TempContent where
  | halfWritten (bytes : String)
  | complete (r : ProgressRecord)
deriving DecidableEq

/-- The pair of paths `save_progress` touches. -/
structure LedgerFs where
  main : DiskFile
  temp : Option TempContent
deriving DecidableEq

/-- Where a `save_progress` run stops: killed while writing the temp
file, killed after the temp write but before the rename, or it runs to
completion. -/
inductive CrashPoint where
  | duringTempWrite (written : String)
  | beforeReplace
  | noCrash
deriving DecidableEq

/-- One `save_progress(r)` run over the two-file state: `json.dump` into
the `.tmp` path (the only step a crash can leave half done), then the
atomic `temp_file.replace(progress_file)`.  The real path is written by
nothing but the rename. -/
def save_progress (fs : LedgerFs) (r : ProgressRecord) (c : CrashPoint) : LedgerFs :=
  match c with
  | .duringTempWrite w => { fs with temp := some (.halfWritten w) }
  | .beforeReplace => { fs with temp := some (.complete r) }
  | .noCrash => { main := .good r, temp := none }

/-! ### Cleanup operations (claim C7)

Each cleanup is a `try/except` around an existence-guarded delete; the
boolean oracle says whether the underlying OS call fails (raising inside
the `try`).  The returned flag records whether an exception escaped to
the caller — the `except` clauses make it `false` on every path. -/

/-- `ProgressTracker.cleanup`: `if self.progress_file.exists():
self.progress_file.unlink()` inside `try/except`.  Returns (disk after,
exception escaped). -/
def pt_cleanup (unlinkFails : Bool) (d : DiskFile) : DiskFile × Bool :=
  match d with
  | .absent => (.absent, false)
  | d => if unlinkFails then (d, false) else (.absent, false)

/-- `FileManager.cleanup`: `if self.base_dir.exists():
shutil.rmtree(self.base_dir)` inside `try/except`; the directory tree is
`some store` when the base directory exists. -/
def fm_cleanup (rmtreeFails : Bool) (dir : Option Store) : Option Store × Bool :=
  match dir with
  | none => (none, false)
  | some s => if rmtreeFails then (some s, false) else (none, false)

/-- `ResearchCrew._cleanup_llm`: when a client handle is held, the owned
reference `self._llm` is cleared to `None` first and only then is the old
handle's `cleanup()` attempted inside the same `try/except` — so the end
state is handle-free whether or not that call fails, and nothing
escapes. -/
def cleanup_llm (handleCleanupFails : Bool) (h : Option Unit) : Option Unit × Bool :=
  match h with
  | none => (none, false)
  | some _ =>
    if handleCleanupFails then (none, false) else (none, false)

/-! ## Model-client creation (`ResearchCrew._create_llm`) -/

/-- Errors the creation path can surface.  The code only ever re-raises
the constructor's own exception (`underlying`); `modelUnavailable` is the
`ModelUnavailableError` wrapper named by the specification, which no code
in the repository defines or raises — it is included so the spec's claim
can be stated and compared. -/
inductive LlmError where
  | underlying (msg : String)
  | modelUnavailable (lastMsg : String)
deriving DecidableEq

/-- `max_retries` in `_create_llm`. -/
def MAX_RETRIES : Nat := 3

/-- The retry loop of `_create_llm`: `while retry_count < max_retries`,
each iteration calls the `LLM(...)` constructor (behaviour given by
`ctor`, indexed by attempt number); on success the handle is returned at
once, on failure `last_error` is recorded, the counter bumped and
`time.sleep(1)` executed before the next iteration; when the loop ends,
`raise last_error` re-raises the last constructor exception unchanged
(the outer `except ... raise` re-raises it again verbatim).  The result
carries (outcome, constructor invocations, sleeps).  The `.getD` default
is unreachable: it models `raise None` for a zero-iteration loop, which
cannot happen with `MAX_RETRIES = 3`. -/
def create_llm_go (ctor : Nat → Except LlmError Unit) (attempt : Nat) :
    Nat → Option LlmError → Nat → Nat → Except LlmError Unit × Nat × Nat
  | 0, lastErr, calls, sleeps =>
    (.error (lastErr.getD (.underlying "NoneType")), calls, sleeps)
  | remaining + 1, _, calls, sleeps =>
    match ctor attempt with
    | .ok h => (.ok h, calls + 1, sleeps)
    | .error e => create_llm_go ctor (attempt + 1) remaining (some e) (calls + 1) (sleeps + 1)

/-- `ResearchCrew._create_llm`. -/
def create_llm (ctor : Nat → Except LlmError Unit) : Except LlmError Unit × Nat × Nat :=
  create_llm_go ctor 0 MAX_RETRIES none 0 0

/-- Modelled from the spec: the spec's `create()` contract, which differs
from `_create_llm` only in the final step — "on final failure, re-raises
the last underlying error as `ModelUnavailableError`" (no such wrapping
exists in the source).  Used only to compare the claimed behaviour with
the code's. -/
def create_llm_spec (ctor : Nat → Except LlmError Unit) : Except LlmError Unit × Nat × Nat :=
  match create_llm ctor with
  | (.error (.underlying m), calls, sleeps) => (.error (.modelUnavailable m), calls, sleeps)
  | r => r

/-! ## Orchestration entry point (`ResearchCrew.process_with_revisions`)

The body builds one crew for the topic and performs exactly one
`crew.kickoff()` — the `max_revisions` parameter is never read in the
body.  The external crew's behaviour is a parameter: it either returns a
value (possibly Python `None`) or raises.  The embedding returns
`Except.ok` for a normal return and would use `Except.error` for an
exception propagating to the caller; the `try/except/finally` shape makes
every path an `Except.ok`. -/

/-- Outcome of the single `crew.kickoff()` call (with `get_crew` folded
in, both being inside the same `try`). -/
inductive CrewOutcome where
  | ok (result : Option String)
  | exn (msg : String)
deriving DecidableEq

/-- Observable side effects of one `process_with_revisions` call. -/
structure ProcTrace where
  kickoff_calls : Nat
  topic_used : String
  ledger_error_logged : Bool
  cleanup_called : Bool
deriving DecidableEq

/-- `ResearchCrew.process_with_revisions(topic, max_revisions=3)`.
`default_topic` is `self._task_templates.get("default_topic", ...)`;
`topic` of `none` or `""` is falsy and replaced by the default.  The
`try` block runs one `kickoff`; a `None` result or a raised exception
each yield an error string returned to the caller (the `except` clause
never calls `self._progress_tracker.log_error`); the marker checks on
`"APPROVED:"` / `"NEEDS REVISION:"` only emit log lines; the `finally`
clause always runs `self.cleanup()`, which cannot raise. -/
def process_with_revisions (kickoff : CrewOutcome) (default_topic : Option String)
    (topic : Option String) (max_revisions : Nat) :
    Except String (String × ProcTrace) :=
  let fallback := default_topic.getD "AI and Machine Learning"
  let topicUsed := match topic with
    | none => fallback
    | some t => if t = "" then fallback else t
  let _ := max_revisions
  match kickoff with
  | .exn msg =>
    .ok ("Error during crew execution: " ++ msg,
      ⟨1, topicUsed, false, true⟩)
  | .ok none =>
    .ok ("Error: No response received from crew",
      ⟨1, topicUsed, false, true⟩)
  | .ok (some s) =>
    .ok (s, ⟨1, topicUsed, false, true⟩)

/-! ## Search-result scoring (`src/tools/web_search.py`)

Scores are IEEE floats in the source; every factor here
(`(11 - position) / 10`, `1.2`, `1.1`, `0.8`, the `[0, 1]` clamp) is
carried exactly in `ℚ`, which preserves the properties at stake —
equality of scores for inputs the formula treats identically, and the
sort/renumber pipeline. -/

/-- The fields of one SerpAPI organic result that
`_calculate_relevance_score` and the claim mention.  `ageDays` is the
result's age in days, derivable from its `date` field; the scoring code
never computes it. -/
structure RawResult where
  position : Nat
  hasDate : Bool
  ageDays : Nat
  richSnippet : Bool
  title : String
deriving DecidableEq

/-- `WebSearchTool._calculate_relevance_score`: start from `1.0`,
multiply by the position decay `(11 - position) / 10`, by `1.2` when a
`date` field is present (regardless of its value), by `1.1` when a
`rich_snippet` field is present, then scale by `0.8` and clamp into
`[0, 1]`. -/
def calculate_relevance_score (r : RawResult) : ℚ :=
  let score : ℚ := 1
  let positionScore : ℚ := (11 - (r.position : ℚ)) / 10
  let score := score * positionScore
  let score := if r.hasDate then score * (12 / 10) else score
  let score := if r.richSnippet then score * (11 / 10) else score
  min (max (score * (8 / 10)) 0) 1

/-- The processed form of a result: what `search` keeps of the
`SearchResult` dataclass for ranking and citation numbering. -/
structure ScoredResult where
  title : String
  relevance_score : ℚ
  reference_number : Nat
deriving DecidableEq

/-- The result-processing tail of `WebSearchTool.search`: score each
organic result with reference numbers `enumerate(…, 1)` in API order,
`sort(key=lambda x: x.relevance_score, reverse=True)` (a stable sort),
keep the first `max_sources`, and renumber those `1..N`. -/
def process_results (organic : List RawResult) (max_sources : Nat) : List ScoredResult :=
  let processed : List ScoredResult := organic.enum.map
    (fun p => ⟨p.2.title, calculate_relevance_score p.2, p.1 + 1⟩)
  let sorted := processed.mergeSort
    (fun a b => decide (b.relevance_score ≤ a.relevance_score))
  let final := sorted.take max_sources
  final.enum.map (fun p => { p.2 with reference_number := p.1 + 1 })

/-! ## Helper lemmas -/

theorem mtimeMax_eq_or (b g : StoredFile) : mtimeMax b g = b ∨ mtimeMax b g = g := by
  unfold mtimeMax
  split
  · exact Or.inr rfl
  · exact Or.inl rfl

theorem mtime_le_mtimeMax_left (b g : StoredFile) : b.mtime ≤ (mtimeMax b g).mtime := by
  unfold mtimeMax
  split <;> omega

theorem mtime_le_mtimeMax_right (b g : StoredFile) : g.mtime ≤ (mtimeMax b g).mtime := by
  unfold mtimeMax
  split <;> omega

theorem foldl_mtimeMax_mem (fs : List StoredFile) : ∀ init : StoredFile,
    fs.foldl mtimeMax init = init ∨ fs.foldl mtimeMax init ∈ fs := by
  induction fs with
  | nil => exact fun _ => Or.inl rfl
  | cons g gs ih =>
    intro init
    rw [List.foldl_cons]
    rcases ih (mtimeMax init g) with h | h
    · rcases mtimeMax_eq_or init g with h2 | h2
      · exact Or.inl (h.trans h2)
      · exact Or.inr (by rw [h, h2]; exact List.mem_cons_self g gs)
    · exact Or.inr (List.mem_cons_of_mem g h)

theorem le_foldl_mtimeMax (fs : List StoredFile) : ∀ init : StoredFile,
    init.mtime ≤ (fs.foldl mtimeMax init).mtime := by
  induction fs with
  | nil => exact fun _ => le_refl _
  | cons g gs ih =>
    intro init
    rw [List.foldl_cons]
    exact le_trans (mtime_le_mtimeMax_left init g) (ih (mtimeMax init g))

theorem mem_le_foldl_mtimeMax (fs : List StoredFile) : ∀ (init : StoredFile), ∀ x ∈ fs,
    x.mtime ≤ (fs.foldl mtimeMax init).mtime := by
  induction fs with
  | nil => intro _ x hx; cases hx
  | cons g gs ih =>
    intro init x hx
    rw [List.foldl_cons]
    rcases List.mem_cons.mp hx with rfl | hx
    · exact le_trans (mtime_le_mtimeMax_right init x) (le_foldl_mtimeMax gs _)
    · exact ih _ x hx

theorem maxByMtime_spec (l : List StoredFile) (f : StoredFile) (h : maxByMtime l = some f) :
    f ∈ l ∧ ∀ g ∈ l, g.mtime ≤ f.mtime := by
  match l with
  | [] => cases h
  | a :: as =>
    simp only [maxByMtime, Option.some.injEq] at h
    subst h
    constructor
    · rcases foldl_mtimeMax_mem as a with h2 | h2
      · rw [h2]; exact List.mem_cons_self a as
      · exact List.mem_cons_of_mem a h2
    · intro g hg
      rcases List.mem_cons.mp hg with rfl | hg
      · exact le_foldl_mtimeMax as g
      · exact mem_le_foldl_mtimeMax as a g hg

theorem maxByMtime_eq_none_iff (l : List StoredFile) : maxByMtime l = none ↔ l = [] := by
  cases l <;> simp [maxByMtime]

/-! ## Claim theorems -/

/-- C3: every `save_progress` writes the whole document to the `.tmp`
path first and only an atomic rename touches the real ledger path, so
whatever the crash point, the ledger file holds either the previously
committed document or the complete new one — never a partial write. -/
theorem c3_save_progress_atomic (fs : LedgerFs) (r : ProgressRecord) (c : CrashPoint) :
    (save_progress fs r c).main = fs.main ∨ (save_progress fs r c).main = .good r := by
  cases c
  · exact Or.inl rfl
  · exact Or.inl rfl
  · exact Or.inr rfl

/-- C10: `recover_progress` is atomic on failure — on an absent or
unparseable ledger file it returns `None` and leaves the cached record
exactly as it was; the cached record is replaced only by a fully
successful load. -/
theorem c10_recover_progress_failure_atomic :
    (∀ cur : ProgressRecord, recover_progress .absent cur = (none, cur)) ∧
    (∀ cur : ProgressRecord, recover_progress .corrupt cur = (none, cur)) ∧
    (∀ (r : ProgressRecord) (cur : ProgressRecord),
      recover_progress (.good r) cur = (some r, r)) :=
  ⟨fun _ => rfl, fun _ => rfl, fun _ _ => rfl⟩

/-- C7: the three cleanup operations (ledger cleanup, artifact-store
cleanup, model-client destroy) never let an exception escape — whatever
state they start from and whether or not the underlying OS call fails —
and with the OS call succeeding a second call is a no-op on the first
call's end state; all three are no-ops on an already-absent resource. -/
theorem c7_cleanup_idempotent_nonraising :
    (∀ (b : Bool) (d : DiskFile), (pt_cleanup b d).2 = false) ∧
    (∀ (b : Bool) (s : Option Store), (fm_cleanup b s).2 = false) ∧
    (∀ (b : Bool) (h : Option Unit), (cleanup_llm b h).2 = false) ∧
    (∀ d : DiskFile, pt_cleanup false (pt_cleanup false d).1 = pt_cleanup false d) ∧
    (∀ s : Option Store, fm_cleanup false (fm_cleanup false s).1 = fm_cleanup false s) ∧
    (∀ h : Option Unit, cleanup_llm false (cleanup_llm false h).1 = cleanup_llm false h) ∧
    pt_cleanup false .absent = (.absent, false) ∧
    fm_cleanup false none = (none, false) ∧
    cleanup_llm false none = (none, false) := by
  refine ⟨?_, ?_, ?_, ?_, ?_, ?_, rfl, rfl, rfl⟩
  · intro b d; cases d <;> cases b <;> rfl
  · intro b s; cases s <;> cases b <;> rfl
  · intro b h; cases h <;> cases b <;> rfl
  · intro d; cases d <;> rfl
  · intro s; cases s <;> rfl
  · intro h; cases h <;> rfl

/-- C6: `update_progress` reloads the on-disk record, appends exactly one
step event and overwrites the scalar fields before persisting; hence when
two trackers sharing a session id each update once in sequence with
distinct agents, a subsequent `recover_progress` shows both step events,
in call order, the scalars reflecting the last writer. -/
theorem c6_concurrent_writer_merge (sid a1 a2 : String) (s1 t1 s2 t2 : Nat)
    (st1 st2 : String) (hne : a1 ≠ a2) :
    (recover_progress
      (update_progress
        (update_progress (tracker_init sid (tracker_init sid .absent).2).2
          (tracker_init sid .absent).1 a1 s1 t1 st1).2
        (tracker_init sid (tracker_init sid .absent).2).1 a2 s2 t2 st2).2
      (update_progress
        (update_progress (tracker_init sid (tracker_init sid .absent).2).2
          (tracker_init sid .absent).1 a1 s1 t1 st1).2
        (tracker_init sid (tracker_init sid .absent).2).1 a2 s2 t2 st2).1).1 =
      some { session_id := sid, current_step := s2, total_steps := t2, status := st2,
             agent := a2, steps := [⟨a1, s1, t1, st1⟩, ⟨a2, s2, t2, st2⟩], errors := [] } := by
  rfl

/-- C6 witness: the merge scenario at concrete inputs — tracker `alpha`
then tracker `beta` update once each; recovery shows both events in call
order. -/
theorem c6_concurrent_writer_merge_witness :
    (("Researcher" : String) ≠ "Writer") ∧
    ((recover_progress
      (update_progress
        (update_progress (tracker_init "sess42" (tracker_init "sess42" .absent).2).2
          (tracker_init "sess42" .absent).1 "Researcher" 1 3 "researching").2
        (tracker_init "sess42" (tracker_init "sess42" .absent).2).1 "Writer" 2 3 "writing").2
      (update_progress
        (update_progress (tracker_init "sess42" (tracker_init "sess42" .absent).2).2
          (tracker_init "sess42" .absent).1 "Researcher" 1 3 "researching").2
        (tracker_init "sess42" (tracker_init "sess42" .absent).2).1 "Writer" 2 3 "writing").1).1 =
       some { session_id := "sess42", current_step := 2, total_steps := 3,
              status := "writing", agent := "Writer",
              steps := [⟨"Researcher", 1, 3, "researching"⟩, ⟨"Writer", 2, 3, "writing"⟩],
              errors := [] }) :=
  ⟨by decide, c6_concurrent_writer_merge "sess42" "Researcher" "Writer" 1 3 2 3
    "researching" "writing" (by decide)⟩

/-- C1: `process_with_revisions` performs exactly ONE `crew.kickoff()`
call and returns the crew's final string verbatim, for every value of
`max_revisions` and every editor verdict — including one that says
"NEEDS REVISION".  There is no revision loop, no attempt counter and no
`max_revisions_reached` flag in the returned value, contradicting the
claim (and the repository's own `test_process_with_revisions_max_reached`
and the function's docstring). -/
theorem c1_single_kickoff_no_revision_loop (s : String) (d : Option String) (N : Nat) :
    process_with_revisions (.ok (some s)) d (some "Test topic") N =
      .ok (s, ⟨1, "Test topic", false, true⟩) := rfl

/-- C2: an exception raised during crew execution is caught at the
`process_with_revisions` boundary, the caller receives the string
"Error during crew execution: <msg>" and cleanup still runs — but the
`except` clause never calls the Progress Ledger's `log_error`
(`ledger_error_logged = false`), contradicting the claim (and the
repository's own `test_error_handling`, which asserts the ledger's
`errors` list becomes non-empty). -/
theorem c2_error_caught_but_not_ledger_logged (msg : String) (d : Option String) (N : Nat) :
    process_with_revisions (.exn msg) d (some "Test Topic") N =
      .ok ("Error during crew execution: " ++ msg, ⟨1, "Test Topic", false, true⟩) := rfl

/-- C4 counterexample: with a constructor that always fails with the
plain error "connection refused", `_create_llm` re-raises that error
itself; the result is not the `ModelUnavailableError` wrapper the claim
names, and the spec-modelled `create()` disagrees with the code. -/
theorem c4_counterexample :
    (create_llm (fun _ => .error (.underlying "connection refused"))).1 =
      .error (.underlying "connection refused") ∧
    (create_llm (fun _ => .error (.underlying "connection refused"))).1 ≠
      .error (.modelUnavailable "connection refused") ∧
    create_llm_spec (fun _ => .error (.underlying "connection refused")) ≠
      create_llm (fun _ => .error (.underlying "connection refused")) := by
  refine ⟨rfl, ?_, ?_⟩
  · intro h
    simp [create_llm, create_llm_go, MAX_RETRIES] at h
  · intro h
    simp [create_llm_spec, create_llm, create_llm_go, MAX_RETRIES] at h

/-- C4 as amended: a constructor failing on all three attempts is invoked
exactly 3 times, `time.sleep(1)` runs after each failed attempt (3
sleeps), and the LAST underlying error itself is re-raised to the caller
— no `ModelUnavailableError` wrapping exists in the code. -/
theorem c4_retry_exhaustion (ctor : Nat → Except LlmError Unit) (e0 e1 e2 : LlmError)
    (h0 : ctor 0 = .error e0) (h1 : ctor 1 = .error e1) (h2 : ctor 2 = .error e2) :
    create_llm ctor = (.error e2, 3, 3) := by
  simp [create_llm, MAX_RETRIES, create_llm_go, h0, h1, h2]

/-- A constructor that fails on every attempt with an attempt-specific
error message (used by the C4 witness). -/
def ctorAlwaysFails : Nat → Except LlmError Unit :=
  fun n => .error (.underlying (if n = 0 then "e0" else if n = 1 then "e1" else "e2"))

/-- C4 witness: `ctorAlwaysFails` fails on attempts 0, 1, 2 with errors
`e0`, `e1`, `e2`; `_create_llm` makes exactly 3 constructor calls, 3
sleeps, and surfaces the raw `e2`. -/
theorem c4_retry_exhaustion_witness :
    ctorAlwaysFails 0 = .error (.underlying "e0") ∧
    ctorAlwaysFails 1 = .error (.underlying "e1") ∧
    ctorAlwaysFails 2 = .error (.underlying "e2") ∧
    create_llm ctorAlwaysFails = (.error (.underlying "e2"), 3, 3) :=
  ⟨rfl, rfl, rfl, c4_retry_exhaustion ctorAlwaysFails _ _ _ rfl rfl rfl⟩

/-- A research artifact of session "A" (used by the C5 counterexample). -/
def fileA : StoredFile := ⟨.research, ⟨"A", "t1"⟩, 10, "current session research"⟩

/-- A newer research artifact of a different session "B" (used by the C5
counterexample). -/
def fileB : StoredFile := ⟨.research, ⟨"B", "t2"⟩, 20, "other session research"⟩

/-- C5 counterexample: with the store holding session A's research
artifact (mtime 10) and session B's newer one (mtime 20), a
`FileManager` whose session is "A" still gets session B's artifact from
`get_latest_research` — the glob is `*.json`, with no session filter —
not the greatest-mtime artifact among the current session's, as the
claim states. -/
theorem c5_counterexample :
    get_latest_research [fileA, fileB] = some fileB ∧
    fileB.fname.sid = "B" ∧ fileA.fname.sid = "A" ∧
    fileA.mtime < fileB.mtime ∧ fileB ≠ fileA := by
  refine ⟨rfl, rfl, rfl, by decide, by decide⟩

/-- C5 as amended: the latest-artifact getter returns the artifact of
the requested kind with the greatest modification time among ALL
artifacts of that kind in the store (any session; ties are broken by
keeping the strictly greatest, so equal mtimes keep the earlier listing
entry), and `None` exactly when no artifact of that kind exists at all. -/
theorem c5_get_latest_max_mtime :
    (∀ (store : Store) (k : Kind) (f : StoredFile),
      get_latest store k = some f →
        f ∈ store ∧ f.kind = k ∧ ∀ g ∈ store, g.kind = k → g.mtime ≤ f.mtime) ∧
    (∀ (store : Store) (k : Kind),
      get_latest store k = none ↔ ∀ g ∈ store, g.kind ≠ k) := by
  constructor
  · intro store k f h
    obtain ⟨hmem, hmax⟩ := maxByMtime_spec _ f h
    rw [List.mem_filter] at hmem
    refine ⟨hmem.1, by simpa using hmem.2, ?_⟩
    intro g hg hk
    exact hmax g (List.mem_filter.mpr ⟨hg, by simpa using hk⟩)
  · intro store k
    rw [get_latest, maxByMtime_eq_none_iff, List.filter_eq_nil_iff]
    simp

/-- A draft with timestamp T1 = 1 (C5 witness). -/
def draftT1 : StoredFile := ⟨.writing, ⟨"sess", "t1"⟩, 1, "T1 draft"⟩

/-- A draft with timestamp T2 = 2 (C5 witness). -/
def draftT2 : StoredFile := ⟨.writing, ⟨"sess", "t2"⟩, 2, "T2 draft"⟩

/-- A draft with timestamp T3 = 3 (C5 witness). -/
def draftT3 : StoredFile := ⟨.writing, ⟨"sess", "t3"⟩, 3, "T3 draft"⟩

/-- C5 witness: drafts with mtimes 1 < 3 < 2 in save order [T2, T3, T1];
`get_latest` returns the T3 draft, a member of the store, of the right
kind and with maximal mtime, regardless of the save order. -/
theorem c5_get_latest_max_mtime_witness :
    get_latest [draftT2, draftT3, draftT1] .writing = some draftT3 ∧
    (draftT3 ∈ [draftT2, draftT3, draftT1] ∧ draftT3.kind = .writing ∧
      ∀ g ∈ [draftT2, draftT3, draftT1], g.kind = .writing → g.mtime ≤ draftT3.mtime) :=
  ⟨rfl, c5_get_latest_max_mtime.1 [draftT2, draftT3, draftT1] .writing draftT3 rfl⟩

/-- Reading back a freshly written path yields the written content. -/
theorem readFile_writeFile_self (k : Kind) (f : FName) (m : Nat) (c : String) :
    ∀ store : Store, readFile (writeFile store k f m c) k f = some c := by
  intro store
  induction store with
  | nil => simp [writeFile, readFile]
  | cons g gs ih =>
    by_cases h : g.kind = k ∧ g.fname = f
    · simp [writeFile, h, readFile]
    · simp only [writeFile, if_neg h]
      simpa [readFile, List.find?_cons, h] using ih

/-- Writing one path leaves the content read at any other path unchanged. -/
theorem readFile_writeFile_other (k : Kind) (f f' : FName) (m : Nat) (c : String)
    (hne : f' ≠ f) : ∀ store : Store,
    readFile (writeFile store k f m c) k f' = readFile store k f' := by
  have hne2 : ¬(f = f') := fun h => hne h.symm
  intro store
  induction store with
  | nil => simp [writeFile, readFile, hne2]
  | cons g gs ih =>
    by_cases h : g.kind = k ∧ g.fname = f
    · simp [writeFile, h, readFile, List.find?_cons, hne, hne2]
    · by_cases hg : g.kind = k ∧ g.fname = f'
      · simp [writeFile, h, hg, readFile, List.find?_cons, hne, hne2]
      · simp only [writeFile, if_neg h]
        simpa [readFile, List.find?_cons, hg] using ih

/-- C8 counterexample: two `save_article` calls in the same session
within the same second (identical `"%Y%m%d_%H%M%S"` timestamps) produce
the SAME file identity, and the second call overwrites the first — the
store ends with a single file holding only the second content, so the
first artifact is no longer retrievable. -/
theorem c8_counterexample :
    (save_article [] "sess" "20240101_120000" 1 "draft one").2 =
      (save_article (save_article [] "sess" "20240101_120000" 1 "draft one").1
        "sess" "20240101_120000" 2 "draft two").2 ∧
    (save_article (save_article [] "sess" "20240101_120000" 1 "draft one").1
        "sess" "20240101_120000" 2 "draft two").1 =
      [⟨.writing, ⟨"sess", "20240101_120000"⟩, 2, "draft two"⟩] :=
  ⟨rfl, rfl⟩

/-- C8 as amended: two saves of the same kind in one session get
distinct file identities and both contents stay retrievable PROVIDED the
two calls carry distinct second-resolution timestamps; saves falling in
the same second reuse one identity and the later one overwrites. -/
theorem c8_distinct_stamps_never_overwrite (store : Store) (sid n1 n2 : String)
    (m1 m2 : Nat) (c1 c2 : String) (hne : n1 ≠ n2) :
    (save_article store sid n1 m1 c1).2 ≠
      (save_article (save_article store sid n1 m1 c1).1 sid n2 m2 c2).2 ∧
    readFile (save_article (save_article store sid n1 m1 c1).1 sid n2 m2 c2).1 .writing
      (save_article store sid n1 m1 c1).2 = some c1 ∧
    readFile (save_article (save_article store sid n1 m1 c1).1 sid n2 m2 c2).1 .writing
      (save_article (save_article store sid n1 m1 c1).1 sid n2 m2 c2).2 = some c2 := by
  have hpath : (⟨sid, n1⟩ : FName) ≠ ⟨sid, n2⟩ := by
    intro h
    exact hne (congrArg FName.stamp h)
  refine ⟨?_, ?_, ?_⟩
  · simpa [save_article] using hpath
  · simp only [save_article]
    rw [readFile_writeFile_other _ _ _ _ _ hpath, readFile_writeFile_self]
  · simp only [save_article]
    rw [readFile_writeFile_self]

/-- C8 witness: saves one second apart get distinct identities and both
drafts remain readable. -/
theorem c8_distinct_stamps_never_overwrite_witness :
    (("20240101_120000" : String) ≠ "20240101_120001") ∧
    ((save_article [] "sess" "20240101_120000" 1 "draft one").2 ≠
      (save_article (save_article [] "sess" "20240101_120000" 1 "draft one").1
        "sess" "20240101_120001" 2 "draft two").2 ∧
    readFile (save_article (save_article [] "sess" "20240101_120000" 1 "draft one").1
        "sess" "20240101_120001" 2 "draft two").1 .writing
      (save_article [] "sess" "20240101_120000" 1 "draft one").2 = some "draft one" ∧
    readFile (save_article (save_article [] "sess" "20240101_120000" 1 "draft one").1
        "sess" "20240101_120001" 2 "draft two").1 .writing
      (save_article (save_article [] "sess" "20240101_120000" 1 "draft one").1
        "sess" "20240101_120001" 2 "draft two").2 = some "draft two") :=
  ⟨by decide, c8_distinct_stamps_never_overwrite [] "sess" "20240101_120000" "20240101_120001"
    1 2 "draft one" "draft two" (by decide)⟩

/-- C9 counterexample: two results identical except for their age — one
10 days old (the claimed ≤30-day tier) and one 400 days old (the claimed
over-365-day tier) — receive EXACTLY the same relevance score, 24/25;
the only date-derived factor is a flat 20% boost for the mere presence
of a date (24/25 = 1.2 times the undated 4/5).  There is no recency
boost tiered at ≤30/≤90/≤365/>365 days. -/
theorem c9_counterexample :
    calculate_relevance_score ⟨1, true, 10, false, "r"⟩ =
      calculate_relevance_score ⟨1, true, 400, false, "r"⟩ ∧
    calculate_relevance_score ⟨1, true, 10, false, "r"⟩ = 24 / 25 ∧
    calculate_relevance_score ⟨1, false, 10, false, "r"⟩ = 4 / 5 := by
  refine ⟨rfl, ?_, ?_⟩
  · show min (max ((1 * ((11 - (1 : ℚ)) / 10) * (12 / 10)) * (8 / 10)) 0) 1 = 24 / 25
    norm_num
  · show min (max ((1 * ((11 - (1 : ℚ)) / 10)) * (8 / 10)) 0) 1 = 4 / 5
    norm_num

/-- Renumbering tail of `search`: mapping the enumerate-and-assign step
over any list yields reference numbers 1..length. -/
theorem map_ref_enum_renumber (l : List ScoredResult) :
    ((l.enum.map (fun p => { p.2 with reference_number := p.1 + 1 })).map
      (fun r => r.reference_number)) = List.range' 1 l.length := by
  rw [List.map_map]
  have hcomp : ((fun r : ScoredResult => r.reference_number) ∘
      fun p : Nat × ScoredResult => { p.2 with reference_number := p.1 + 1 }) =
      (fun n => n + 1) ∘ Prod.fst := rfl
  rw [hcomp, ← List.map_map, List.enum_map_fst, List.range'_eq_map_range]
  exact List.map_congr_left (fun a _ => Nat.add_comm a 1)

/-- Sort-then-take-then-renumber preserves descending order of the
relevance scores, for any scored input list. -/
theorem pairwise_sorted_take_renumber (processed : List ScoredResult) (ms : Nat) :
    (((processed.mergeSort
        (fun a b => decide (b.relevance_score ≤ a.relevance_score))).take ms).enum.map
      (fun p => { p.2 with reference_number := p.1 + 1 })).Pairwise
      (fun a b => b.relevance_score ≤ a.relevance_score) := by
  have hsorted : (processed.mergeSort
      (fun a b => decide (b.relevance_score ≤ a.relevance_score))).Pairwise
      (fun a b : ScoredResult => b.relevance_score ≤ a.relevance_score) := by
    have hms := @List.sorted_mergeSort ScoredResult
      (fun a b : ScoredResult => decide (b.relevance_score ≤ a.relevance_score))
      (fun a b c hab hbc => by
        simp only [decide_eq_true_eq] at hab hbc ⊢
        exact le_trans hbc hab)
      (fun a b => by simpa using le_total b.relevance_score a.relevance_score)
      processed
    exact hms.imp (fun h => by simpa using h)
  have htake : ((processed.mergeSort
      (fun a b => decide (b.relevance_score ≤ a.relevance_score))).take ms).Pairwise
      (fun a b : ScoredResult => b.relevance_score ≤ a.relevance_score) :=
    List.Pairwise.sublist (List.take_sublist ms _) hsorted
  have henum : ((processed.mergeSort
      (fun a b => decide (b.relevance_score ≤ a.relevance_score))).take ms).enum.Pairwise
      (fun p q : Nat × ScoredResult => q.2.relevance_score ≤ p.2.relevance_score) := by
    have hmap : (((processed.mergeSort
        (fun a b => decide (b.relevance_score ≤ a.relevance_score))).take ms).enum.map
        (Prod.snd : Nat × ScoredResult → ScoredResult)).Pairwise
        (fun a b : ScoredResult => b.relevance_score ≤ a.relevance_score) := by
      rw [List.enum_map_snd]
      exact htake
    exact List.pairwise_map.mp hmap
  rw [List.pairwise_map]
  exact henum.imp (fun h => h)

/-- C9 as amended: the relevance score combines position decay
`(11 - position) / 10`, a flat 20% boost for the presence of a date
(independent of the result's age — no ≤30/≤90/≤365/>365 tiers), and a
10% rich-snippet bonus, scaled by 0.8 and clamped into [0, 1]; the
returned list is sorted by this score in descending order and its
citation reference numbers are renumbered consecutively
1..min(max_sources, number of results). -/
theorem c9_score_flat_date_boost_sorted_renumbered :
    (∀ (p : Nat) (hd rs : Bool) (t : String) (a b : Nat),
      calculate_relevance_score ⟨p, hd, a, rs, t⟩ =
        calculate_relevance_score ⟨p, hd, b, rs, t⟩) ∧
    (∀ (organic : List RawResult) (ms : Nat),
      (process_results organic ms).map (fun r => r.reference_number) =
        List.range' 1 (min ms organic.length)) ∧
    (∀ (organic : List RawResult) (ms : Nat),
      (process_results organic ms).Pairwise
        (fun a b => b.relevance_score ≤ a.relevance_score)) := by
  refine ⟨fun _ _ _ _ _ _ => rfl, ?_, ?_⟩
  · intro organic ms
    simp only [process_results]
    rw [map_ref_enum_renumber, List.length_take,
      (List.mergeSort_perm _ _).length_eq, List.length_map, List.enum_length]
  · intro organic ms
    simp only [process_results]
    exact pairwise_sorted_take_renumber _ ms

end CrewExp
